import Mathlib

/-!
Verification of the ReplyRate backend (`src/main.py` and `src/backend/main.py`).

Messages are modelled as `List Char` (Python `str`), JSON values by the
inductive `Json` (numbers restricted to integers, as the contract demands an
integer score), and each handler as a pure function from the configured
credential, an oracle for the outcome of the remote call, and the raw message
to an `Except` of an error equivalence class or an `AnalyzeResponse`.
-/

/-- JSON values as produced by `json.loads`; numeric payloads are modelled as
integers (the remote contract asks for an integer score). -/
inductive Json where
  | null : Json
  | bool : Bool → Json
  | num : Int → Json
  | str : String → Json
  | arr : List Json → Json
  | obj : List (String × Json) → Json

/-- The response model shared by both files (`AnalyzeResponse`). -/
structure AnalyzeResponse where
  score : Int
  reasons : List String
  improved : String
deriving DecidableEq

/-- Error classes surfaced to the HTTP caller: `invalidInput` is the
400-equivalent raised on empty trimmed input, `upstreamError` the
502-equivalent of the strict failure policy. -/
inductive AnalyzeError where
  | invalidInput : AnalyzeError
  | upstreamError : AnalyzeError
deriving DecidableEq

/-- Characters stripped by Python `str.strip()` (ASCII whitespace). -/
def isPyWhitespace (c : Char) : Bool :=
  c == ' ' || c == '\t' || c == '\n' || c == '\r' || c == '\x0b' || c == '\x0c'

/-- Python `str.strip()`: drop leading and trailing whitespace. -/
def pyStrip (s : List Char) : List Char :=
  ((s.dropWhile isPyWhitespace).reverse.dropWhile isPyWhitespace).reverse

/-- Python `str.lower()` (ASCII). -/
def pyLower (s : List Char) : List Char :=
  s.map Char.toLower

/-- Truthiness of the optional credential (`if api_key:` / `if not OPENAI_API_KEY:`):
absent or empty strings are falsy. -/
def pyStrTruthy : Option String → Bool
  | none => false
  | some s => s != ""

/-- Truthiness of a JSON value under Python (`or` chains in the handlers). -/
def pyTruthy : Json → Bool
  | Json.null => false
  | Json.bool b => b
  | Json.num n => n != 0
  | Json.str s => s != ""
  | Json.arr xs => !xs.isEmpty
  | Json.obj fs => !fs.isEmpty

/-- Field lookup in a JSON object (`dict.get`), keys unique as in a Python dict. -/
def lookupField : List (String × Json) → String → Option Json
  | [], _ => none
  | (k, v) :: rest, key => if k = key then some v else lookupField rest key

/-- Accumulator for a run of decimal digits; any non-digit aborts. -/
def decDigitsAux : Option Nat → List Char → Option Nat
  | acc, [] => acc
  | some n, c :: cs => if c.isDigit then decDigitsAux (some (n * 10 + (c.toNat - 48))) cs else none
  | none, _ :: _ => none

/-- Parse a non-empty run of decimal digits. -/
def decDigits (cs : List Char) : Option Nat :=
  if cs = [] then none else decDigitsAux (some 0) cs

/-- Python `int(str)`: optional sign and digits after stripping whitespace;
anything else raises. -/
def pyIntOfString (s : String) : Option Int :=
  match pyStrip s.toList with
  | '-' :: rest => (decDigits rest).map (fun n => -(n : Int))
  | '+' :: rest => (decDigits rest).map (fun n => (n : Int))
  | cs => (decDigits cs).map (fun n => (n : Int))

/-- Python `int(...)` applied to a JSON value: integers pass through, booleans
coerce to 0 or 1, numeric strings parse; everything else raises (`none`). -/
def pyInt : Json → Option Int
  | Json.num n => some n
  | Json.bool b => some (if b then 1 else 0)
  | Json.str s => pyIntOfString s
  | _ => none

mutual

/-- Python `repr` of a JSON value (used by `str` on non-scalar values). -/
def pyRepr : Json → String
  | Json.null => "None"
  | Json.bool true => "True"
  | Json.bool false => "False"
  | Json.num n => toString n
  | Json.str s => "\x27" ++ s ++ "\x27"
  | Json.arr xs => "[" ++ pyReprList xs ++ "]"
  | Json.obj fs => "\x7b" ++ pyReprFields fs ++ "\x7d"

/-- Comma-separated rendering of array elements. -/
def pyReprList : List Json → String
  | [] => ""
  | [v] => pyRepr v
  | v :: vs => pyRepr v ++ ", " ++ pyReprList vs

/-- Comma-separated rendering of object fields. -/
def pyReprFields : List (String × Json) → String
  | [] => ""
  | [(k, v)] => "\x27" ++ k ++ "\x27: " ++ pyRepr v
  | (k, v) :: fs => "\x27" ++ k ++ "\x27: " ++ pyRepr v ++ ", " ++ pyReprFields fs

end

/-- Python `str(...)` on a JSON value: identity on strings, `repr` otherwise. -/
def pyStr : Json → String
  | Json.str s => s
  | v => pyRepr v

/-- Python substring containment `needle in hay` on strings: some prefix
position of `hay` starts with `needle` (the empty needle is contained in
everything). -/
def pyIn (needle hay : List Char) : Bool :=
  needle.isPrefixOf hay ||
    match hay with
    | [] => false
    | _ :: t => pyIn needle t

/-- Pydantic validation of a `list` assigned to a `List[str]` field: every
element must already be a string. -/
def allStrings : List Json → Option (List String)
  | [] => some []
  | Json.str s :: rest => (allStrings rest).map (fun rs => s :: rs)
  | _ :: _ => none

/-- Outcome of the remote attempt in `src/main.py`: either some exception was
raised before a JSON value was obtained (network failure, missing package,
`json.loads` failure), or a parsed JSON value is in hand. -/
inductive RemoteOutcome where
  | exn : RemoteOutcome
  | parsed : Json → RemoteOutcome

/-- Outcome of the remote attempt in `src/backend/main.py`, abstracted the same
way over the `httpx` call, `raise_for_status`, and text extraction. -/
inductive BackendRemoteOutcome where
  | exn : BackendRemoteOutcome
  | parsed : Json → BackendRemoteOutcome

namespace Main

def reasonShort : String := "Message is quite short; limited context reduces relevance."

def reasonLong : String := "Message is long; busy recipients may skim or ignore."

def reasonTiming : String := "Requesting time too early can depress replies."

def reasonSalesy : String := "Salesy phrasing may reduce trust."

def reasonFocus : String := "Insufficient recipient focus."

def improvedText : String :=
  "Hey there — noticed your recent work on [specific initiative]. We helped a similar team achieve [clear outcome] without extra lift. Worth a quick async walkthrough or a 7‑min chat next week?"

def defaultReasons : List String :=
  ["Tighten the ask to something low‑commitment.",
   "Add one concrete, recipient‑centric benefit.",
   "Personalize with a recent post, project, or metric."]

def kwCalendar : List Char := "calendar".toList

def kwSchedule : List Char := "schedule".toList

def kwFree : List Char := "free".toList

def kwDiscount : List Char := "discount".toList

def kwLimitedTime : List Char := "limited time".toList

def kwYou : List Char := "you".toList

def kwYour : List Char := "your".toList

def kwYours : List Char := "yours".toList

/-- Check 2 of the heuristic: `len(msg) < 80`. -/
def condShort (msg : List Char) : Bool := msg.length < 80

/-- Check 3: `len(msg) > 600`. -/
def condLong (msg : List Char) : Bool := msg.length > 600

/-- Check 4: `"calendar" in lower or "schedule" in lower`. -/
def condTiming (msg : List Char) : Bool :=
  pyIn kwCalendar (pyLower msg) || pyIn kwSchedule (pyLower msg)

/-- Check 5: `any(w in lower for w in ["free", "discount", "limited time"])`. -/
def condSalesy (msg : List Char) : Bool :=
  [kwFree, kwDiscount, kwLimitedTime].any (fun w => pyIn w (pyLower msg))

/-- Check 6: `not any(x in lower for x in ["you", "your", "yours"])`. -/
def condFocusMissing (msg : List Char) : Bool :=
  !([kwYou, kwYour, kwYours].any (fun w => pyIn w (pyLower msg)))

/-- The heuristic fallback scorer, `src/main.py` lines 95-130: base 75, the
five penalty checks in order, the `[20, 92]` clamp, the constant improved
template, and the default reasons triple when no check fired. -/
def heuristic (msg : List Char) : AnalyzeResponse :=
  let score0 : Int := 75
  let reasons0 : List String := []
  let score1 := if condShort msg then score0 - 8 else score0
  let reasons1 := if condShort msg then reasons0 ++ [reasonShort] else reasons0
  let score2 := if condLong msg then score1 - 10 else score1
  let reasons2 := if condLong msg then reasons1 ++ [reasonLong] else reasons1
  let score3 := if condTiming msg then score2 - 5 else score2
  let reasons3 := if condTiming msg then reasons2 ++ [reasonTiming] else reasons2
  let score4 := if condSalesy msg then score3 - 6 else score3
  let reasons4 := if condSalesy msg then reasons3 ++ [reasonSalesy] else reasons3
  let score5 := if condFocusMissing msg then score4 - 7 else score4
  let reasons5 := if condFocusMissing msg then reasons4 ++ [reasonFocus] else reasons4
  let score := max 20 (min 92 score5)
  let reasons := if reasons5 = [] then defaultReasons else reasons5
  { score := score, reasons := reasons, improved := improvedText }

/-- Normalization of the parsed remote JSON, `src/main.py` lines 79-89:
`score = int(max(0, min(100, int(parsed.get("score", 68)))))`, the `or []` /
`or ""` defaulting of `reasons` and `improved`, the `[str(reasons)]` coercion
for non-list reasons, and pydantic validation of the constructed response.
`none` means an exception was raised, falling through to the heuristic. -/
def remoteNormalize : Json → Option AnalyzeResponse
  | Json.obj fields =>
    match pyInt ((lookupField fields "score").getD (Json.num 68)) with
    | none => none
    | some n =>
      let score := max 0 (min 100 n)
      let reasonsJ :=
        let r := (lookupField fields "reasons").getD (Json.arr [])
        if pyTruthy r then r else Json.arr []
      let improvedJ :=
        let i := (lookupField fields "improved").getD (Json.str "")
        if pyTruthy i then i else Json.str ""
      let reasonsStrs : Option (List String) :=
        match reasonsJ with
        | Json.arr xs => allStrings xs
        | v => if pyTruthy v then some [pyStr v] else some []
      let improvedStr : Option String :=
        match improvedJ with
        | Json.str s => some s
        | _ => none
      match reasonsStrs, improvedStr with
      | some rs, some imp => some { score := score, reasons := rs, improved := imp }
      | _, _ => none
  | _ => (none : Option AnalyzeResponse)

/-- The `/analyze` handler of `src/main.py`: reject empty trimmed input,
attempt the remote path only when a credential is truthy, and fall through to
the heuristic both when no credential is configured and on any remote
exception. -/
def analyze (apiKey : Option String) (remote : RemoteOutcome) (raw : List Char) :
    Except AnalyzeError AnalyzeResponse :=
  let msg := pyStrip raw
  if msg = [] then Except.error AnalyzeError.invalidInput
  else
    let remoteAttempt : Option AnalyzeResponse :=
      if pyStrTruthy apiKey then
        match remote with
        | RemoteOutcome.exn => none
        | RemoteOutcome.parsed j => remoteNormalize j
      else none
    match remoteAttempt with
    | some resp => Except.ok resp
    | none => Except.ok (heuristic msg)

end Main

namespace Backend

def mockReasons : List String :=
  ["Message could be more personalized",
   "CTA may feel time-consuming without clear value",
   "Tighten the copy and lead with the outcome"]

def mockImproved : String :=
  "Hey — loved your recent post. We helped a similar team hit measurable wins (e.g., +27% faster ramp). Would a 7‑min async walkthrough help you see if it fits your priorities?"

/-- The constant response of the `except` branch, `src/backend/main.py`
lines 101-107. -/
def fallbackResponse : AnalyzeResponse :=
  { score := 70,
    reasons := ["Temporary analysis issue, showing smart estimate", "Try again in a moment"],
    improved := "Refocus on the recipient\x27s outcome, personalize one detail, and propose a low‑lift next step (e.g., a 7‑minute async walkthrough)." }

/-- Normalization of the parsed remote JSON, `src/backend/main.py` lines
92-98: `int(parsed.get("score", 72))`, non-empty defaults for `reasons` and
`improved`, clamp to `[0, 100]`, `[str(reasons)]` coercion for non-list
reasons, and pydantic validation. `none` means an exception was raised,
answered by `fallbackResponse`. -/
def remoteNormalize : Json → Option AnalyzeResponse
  | Json.obj fields =>
    match pyInt ((lookupField fields "score").getD (Json.num 72)) with
    | none => none
    | some n =>
      let score := max 0 (min 100 n)
      let reasonsJ := (lookupField fields "reasons").getD (Json.arr [Json.str "Message could be clearer"])
      let improvedJ := (lookupField fields "improved").getD (Json.str "Here is a clearer version of your message.")
      let reasonsStrs : Option (List String) :=
        match reasonsJ with
        | Json.arr xs => allStrings xs
        | v => some [pyStr v]
      let improvedStr : Option String :=
        match improvedJ with
        | Json.str s => some s
        | _ => none
      match reasonsStrs, improvedStr with
      | some rs, some imp => some { score := score, reasons := rs, improved := imp }
      | _, _ => none
  | _ => (none : Option AnalyzeResponse)

/-- The `/analyze` handler of `src/backend/main.py`: reject empty trimmed
input; with no credential answer the mocked response whose score is
`max(35, min(95, 72 - max(0, (len(message) - 400) // 40)))`; with a
credential attempt the remote path and answer `fallbackResponse` on any
exception. -/
def analyze (apiKey : Option String) (remote : BackendRemoteOutcome) (raw : List Char) :
    Except AnalyzeError AnalyzeResponse :=
  let message := pyStrip raw
  if message = [] then Except.error AnalyzeError.invalidInput
  else if !(pyStrTruthy apiKey) then
    let lengthPenalty : Int := max 0 (((message.length : Int) - 400).fdiv 40)
    let base : Int := 72
    let score := max 35 (min 95 (base - lengthPenalty))
    Except.ok { score := score, reasons := mockReasons, improved := mockImproved }
  else
    match remote with
    | BackendRemoteOutcome.exn => Except.ok fallbackResponse
    | BackendRemoteOutcome.parsed j =>
      match remoteNormalize j with
      | some resp => Except.ok resp
      | none => Except.ok fallbackResponse

end Backend

/-- Remote-path error taxonomy of the strict variant (spec §4.3 and §7). -/
inductive RemoteError where
  | remoteUnavailable : RemoteError
  | malformedRemoteResponse : RemoteError
  | invalidScore : RemoteError
  | invalidReasons : RemoteError
  | invalidImproved : RemoteError
deriving DecidableEq

namespace VariantC

/-- Modelled from the spec: the strict-variant validation of the remote JSON
reply (spec §4.3); no Variant C implementation is present under `src/`.
Non-objects are `malformedRemoteResponse`; `score` is required and must be
integer-coercible (`invalidScore` otherwise) and is clamped to `[0, 100]`;
`reasons` must be an array of strings (`invalidReasons`); `improved` must be
a non-empty string (`invalidImproved`). -/
def strictNormalize : Json → Except RemoteError AnalyzeResponse
  | Json.obj fields =>
    match lookupField fields "score" with
    | none => Except.error RemoteError.invalidScore
    | some v =>
      match pyInt v with
      | none => Except.error RemoteError.invalidScore
      | some n =>
        let score := max 0 (min 100 n)
        match lookupField fields "reasons" with
        | some (Json.arr xs) =>
          match allStrings xs with
          | some rs =>
            match lookupField fields "improved" with
            | some (Json.str s) =>
              if s = "" then Except.error RemoteError.invalidImproved
              else Except.ok { score := score, reasons := rs, improved := s }
            | _ => Except.error RemoteError.invalidImproved
          | none => Except.error RemoteError.invalidReasons
        | _ => Except.error RemoteError.invalidReasons
  | _ => (Except.error RemoteError.malformedRemoteResponse : Except RemoteError AnalyzeResponse)

/-- Modelled from the spec: the Variant C `/analyze` handler (spec §4.3,
Variant C; §6; Scenario 5); no Variant C implementation is present under
`src/`. When a credential is configured, any remote failure (the exception
outcome or a strict-validation error) is surfaced as the 502-equivalent
`upstreamError`; the heuristic runs only when no credential is configured. -/
def analyze (apiKey : Option String) (remote : RemoteOutcome) (raw : List Char) :
    Except AnalyzeError AnalyzeResponse :=
  let msg := pyStrip raw
  if msg = [] then Except.error AnalyzeError.invalidInput
  else if pyStrTruthy apiKey then
    match remote with
    | RemoteOutcome.exn => Except.error AnalyzeError.upstreamError
    | RemoteOutcome.parsed j =>
      match strictNormalize j with
      | Except.ok resp => Except.ok resp
      | Except.error _ => Except.error AnalyzeError.upstreamError
  else Except.ok (Main.heuristic msg)

end VariantC

set_option maxRecDepth 100000

theorem main_norm_fail (fields : List (String × Json))
    (e : pyInt ((lookupField fields "score").getD (Json.num 68)) = none) :
    Main.remoteNormalize (Json.obj fields) = none := by
  simp only [Main.remoteNormalize]
  rw [e]

theorem main_norm_score (fields : List (String × Json)) (n : Int)
    (e : pyInt ((lookupField fields "score").getD (Json.num 68)) = some n)
    (resp : AnalyzeResponse) (h : Main.remoteNormalize (Json.obj fields) = some resp) :
    resp.score = max 0 (min 100 n) := by
  simp only [Main.remoteNormalize] at h
  rw [e] at h
  split at h
  · exact Option.noConfusion h
  · rename_i m heq
    injection heq with heq2
    subst heq2
    split at h
    · simp only [Option.some.injEq] at h
      rw [← h]
    all_goals exact Option.noConfusion h

theorem backend_norm_fail (fields : List (String × Json))
    (e : pyInt ((lookupField fields "score").getD (Json.num 72)) = none) :
    Backend.remoteNormalize (Json.obj fields) = none := by
  simp only [Backend.remoteNormalize]
  rw [e]

theorem backend_norm_score (fields : List (String × Json)) (n : Int)
    (e : pyInt ((lookupField fields "score").getD (Json.num 72)) = some n)
    (resp : AnalyzeResponse) (h : Backend.remoteNormalize (Json.obj fields) = some resp) :
    resp.score = max 0 (min 100 n) := by
  simp only [Backend.remoteNormalize] at h
  rw [e] at h
  split at h
  · exact Option.noConfusion h
  · rename_i m heq
    injection heq with heq2
    subst heq2
    split at h
    · simp only [Option.some.injEq] at h
      rw [← h]
    all_goals exact Option.noConfusion h

/-- Claim C1: for every input message the heuristic scoring engine produces a
score in the closed interval [20, 92]: starting from 75, applying the penalty
steps, and then clamping with `max(20, min(92, score))`. -/
theorem heuristic_score_in_range (msg : List Char) :
    20 ≤ (Main.heuristic msg).score ∧ (Main.heuristic msg).score ≤ 92 := by
  unfold Main.heuristic
  exact ⟨le_max_left _ _, max_le (by norm_num) (min_le_left _ _)⟩

/-- Claim C3: a raw message whose trimmed form is empty is rejected by the
`/analyze` handlers of both files with the 400-equivalent `invalidInput`
error, for every credential configuration and remote outcome, so no scoring
is performed. -/
theorem analyze_empty_input_rejected (raw : List Char) (k1 k2 : Option String)
    (r1 : RemoteOutcome) (r2 : BackendRemoteOutcome) (h : pyStrip raw = []) :
    Main.analyze k1 r1 raw = Except.error AnalyzeError.invalidInput ∧
    Backend.analyze k2 r2 raw = Except.error AnalyzeError.invalidInput := by
  constructor
  · unfold Main.analyze
    simp [h]
  · unfold Backend.analyze
    simp [h]

/-- Witness for C3 at the whitespace-only input "   ". -/
theorem analyze_empty_input_rejected_witness :
    Main.analyze (some "k") RemoteOutcome.exn "   ".toList = Except.error AnalyzeError.invalidInput ∧
    Backend.analyze none BackendRemoteOutcome.exn "   ".toList = Except.error AnalyzeError.invalidInput :=
  analyze_empty_input_rejected "   ".toList (some "k") none RemoteOutcome.exn
    BackendRemoteOutcome.exn (by decide)

/-- Claim C4 counterexample: a remote JSON object with no `score` field does
not fail the operation — `src/main.py` substitutes the default 68 and
`src/backend/main.py` the default 72, each yielding a successful normalized
response, so the `score` field is not required. -/
theorem remote_score_absent_defaults :
    lookupField [] "score" = none ∧
    Main.remoteNormalize (Json.obj []) = some { score := 68, reasons := [], improved := "" } ∧
    Backend.remoteNormalize (Json.obj []) =
      some { score := 72, reasons := ["Message could be clearer"],
             improved := "Here is a clearer version of your message." } :=
  ⟨rfl, rfl, rfl⟩

/-- Claim C4 amended: in the remote scoring path the `score` field is
optional — when absent, the defaults 68 (`src/main.py`) and 72
(`src/backend/main.py`) are substituted; when present but not
integer-coercible the extraction raises, surfacing as the variant's fallback;
and the in-range result of every successful normalization is obtained by
clamping the coerced integer to [0, 100]. -/
theorem remote_score_optional_clamped (fields : List (String × Json)) :
    (lookupField fields "score" = none →
      (∀ resp, Main.remoteNormalize (Json.obj fields) = some resp → resp.score = 68) ∧
      (∀ resp, Backend.remoteNormalize (Json.obj fields) = some resp → resp.score = 72)) ∧
    (∀ v, lookupField fields "score" = some v → pyInt v = none →
      Main.remoteNormalize (Json.obj fields) = none ∧
      Backend.remoteNormalize (Json.obj fields) = none) ∧
    (∀ v n, lookupField fields "score" = some v → pyInt v = some n →
      (∀ resp, Main.remoteNormalize (Json.obj fields) = some resp →
        resp.score = max 0 (min 100 n)) ∧
      (∀ resp, Backend.remoteNormalize (Json.obj fields) = some resp →
        resp.score = max 0 (min 100 n))) ∧
    (∀ resp, Main.remoteNormalize (Json.obj fields) = some resp →
      0 ≤ resp.score ∧ resp.score ≤ 100) ∧
    (∀ resp, Backend.remoteNormalize (Json.obj fields) = some resp →
      0 ≤ resp.score ∧ resp.score ≤ 100) := by
  refine ⟨fun habs => ⟨fun resp h => ?_, fun resp h => ?_⟩,
    fun v hv hbad => ⟨?_, ?_⟩,
    fun v n hv hn => ⟨fun resp h => ?_, fun resp h => ?_⟩,
    fun resp h => ?_, fun resp h => ?_⟩
  · have := main_norm_score fields 68 (by rw [habs]; rfl) resp h
    simpa using this
  · have := backend_norm_score fields 72 (by rw [habs]; rfl) resp h
    simpa using this
  · exact main_norm_fail fields (by rw [hv]; exact hbad)
  · exact backend_norm_fail fields (by rw [hv]; exact hbad)
  · exact main_norm_score fields n (by rw [hv]; exact hn) resp h
  · exact backend_norm_score fields n (by rw [hv]; exact hn) resp h
  · rcases e : pyInt ((lookupField fields "score").getD (Json.num 68)) with _ | m
    · exact absurd h (by rw [main_norm_fail fields e]; exact fun hc => Option.noConfusion hc)
    · rw [main_norm_score fields m e resp h]
      exact ⟨le_max_left _ _, max_le (by norm_num) (min_le_left _ _)⟩
  · rcases e : pyInt ((lookupField fields "score").getD (Json.num 72)) with _ | m
    · exact absurd h (by rw [backend_norm_fail fields e]; exact fun hc => Option.noConfusion hc)
    · rw [backend_norm_score fields m e resp h]
      exact ⟨le_max_left _ _, max_le (by norm_num) (min_le_left _ _)⟩

/-- Witness for the amended C4: a remote score of 250 is clamped to 100. -/
theorem remote_score_optional_clamped_witness :
    ({ score := 100, reasons := [], improved := "" } : AnalyzeResponse).score =
      max 0 (min 100 250) :=
  ((remote_score_optional_clamped [("score", Json.num 250)]).2.2.1 (Json.num 250) 250
    rfl rfl).1 { score := 100, reasons := [], improved := "" } rfl

/-- Claim C5 counterexample: in `src/backend/main.py` the input "Hi" with no
credential configured is answered by the mocked response with score 72, whose
fixed reasons list contains neither of the two claimed literals, so the
claimed score of 60 fails on that handler. -/
theorem backend_hi_scores_72 :
    Backend.analyze none BackendRemoteOutcome.exn "Hi".toList =
      Except.ok { score := 72, reasons := Backend.mockReasons, improved := Backend.mockImproved } ∧
    (72 : Int) ≠ 60 ∧
    Main.reasonShort ∉ Backend.mockReasons ∧
    Main.reasonFocus ∉ Backend.mockReasons :=
  ⟨rfl, by decide, by decide, by decide⟩

/-- Claim C5 amended: in `src/main.py` (the file implementing the §4.2
heuristic) the input "Hi" with no credential configured scores exactly
60 = 75 − 8 − 7 and the reasons contain both the short-message and the
missing-recipient-focus literals; the no-credential path of
`src/backend/main.py` instead returns its fixed mock with score 72. -/
theorem main_hi_scores_60 (r : RemoteOutcome) :
    Main.analyze none r "Hi".toList =
      Except.ok { score := 60, reasons := [Main.reasonShort, Main.reasonFocus],
                  improved := Main.improvedText } ∧
    Main.reasonShort ∈ [Main.reasonShort, Main.reasonFocus] ∧
    Main.reasonFocus ∈ [Main.reasonShort, Main.reasonFocus] :=
  ⟨rfl, by decide, by decide⟩

theorem heuristic_improved_eq (msg : List Char) :
    (Main.heuristic msg).improved = Main.improvedText := rfl

theorem penaltyStep_le (c1 c2 : Bool) (h : c1 = true → c2 = true) (s1 s2 k : Int)
    (hk : 0 ≤ k) (hs : s2 ≤ s1) :
    (if c2 then s2 - k else s2) ≤ (if c1 then s1 - k else s1) := by
  cases c1 <;> cases c2 <;> simp_all <;> omega

/-- Claim C6: every message of length 700 containing "schedule" and "free"
(case-insensitively) and none of "you", "your", "yours" scores
47 = 75 − 10 − 5 − 6 − 7 (the clamp not triggered), with a reasons sequence
of exactly the 4 entries of checks 3–6 in order. -/
theorem heuristic_scenario4 (msg : List Char) (hlen : msg.length = 700)
    (hs : pyIn Main.kwSchedule (pyLower msg) = true)
    (hf : pyIn Main.kwFree (pyLower msg) = true)
    (hy : pyIn Main.kwYou (pyLower msg) = false)
    (hyr : pyIn Main.kwYour (pyLower msg) = false)
    (hys : pyIn Main.kwYours (pyLower msg) = false) :
    Main.heuristic msg =
      { score := 47,
        reasons := [Main.reasonLong, Main.reasonTiming, Main.reasonSalesy, Main.reasonFocus],
        improved := Main.improvedText } := by
  have hshort : Main.condShort msg = false := by
    simp only [Main.condShort, hlen]
    decide
  have hlong : Main.condLong msg = true := by
    simp only [Main.condLong, hlen]
    decide
  have htiming : Main.condTiming msg = true := by
    simp [Main.condTiming, hs]
  have hsalesy : Main.condSalesy msg = true := by
    simp [Main.condSalesy, hf]
  have hfocus : Main.condFocusMissing msg = true := by
    simp [Main.condFocusMissing, hy, hyr, hys]
  simp only [Main.heuristic, hshort, hlong, htiming, hsalesy, hfocus]
  decide

/-- A concrete length-700 message for Scenario 4. -/
def c6msg : List Char := "schedule free ".toList ++ List.replicate 686 'a'

/-- Witness for C6 at a concrete length-700 message. -/
theorem heuristic_scenario4_witness :
    Main.heuristic c6msg =
      { score := 47,
        reasons := [Main.reasonLong, Main.reasonTiming, Main.reasonSalesy, Main.reasonFocus],
        improved := Main.improvedText } :=
  heuristic_scenario4 c6msg (by decide) (by decide) (by decide) (by decide) (by decide) (by decide)

/-- Claim C7: monotonicity of the heuristic score — whenever every penalty
condition of checks 2–6 true of `m1` is also true of `m2`, the score of `m2`
is at most the score of `m1` (additive penalties from base 75 under the
monotone [20, 92] clamp). -/
theorem heuristic_score_monotone (m1 m2 : List Char)
    (h1 : Main.condShort m1 = true → Main.condShort m2 = true)
    (h2 : Main.condLong m1 = true → Main.condLong m2 = true)
    (h3 : Main.condTiming m1 = true → Main.condTiming m2 = true)
    (h4 : Main.condSalesy m1 = true → Main.condSalesy m2 = true)
    (h5 : Main.condFocusMissing m1 = true → Main.condFocusMissing m2 = true) :
    (Main.heuristic m2).score ≤ (Main.heuristic m1).score := by
  have t1 := penaltyStep_le _ _ h1 75 75 8 (by norm_num) le_rfl
  have t2 := penaltyStep_le _ _ h2 _ _ 10 (by norm_num) t1
  have t3 := penaltyStep_le _ _ h3 _ _ 5 (by norm_num) t2
  have t4 := penaltyStep_le _ _ h4 _ _ 6 (by norm_num) t3
  have t5 := penaltyStep_le _ _ h5 _ _ 7 (by norm_num) t4
  unfold Main.heuristic
  exact max_le_max le_rfl (min_le_min le_rfl t5)

/-- A message of length 84 containing "you" which triggers no penalty check. -/
def monoMsgA : List Char := "you ".toList ++ List.replicate 80 'a'

/-- Witness for C7: "Hi" triggers a superset of the (empty) condition set of
`monoMsgA`, so it scores no higher. -/
theorem heuristic_score_monotone_witness :
    (Main.heuristic "Hi".toList).score ≤ (Main.heuristic monoMsgA).score :=
  heuristic_score_monotone monoMsgA "Hi".toList (by decide) (by decide) (by decide)
    (by decide) (by decide)

/-- Claim C8 counterexample: on the remote path of `src/main.py` a reply
`{"score": 50}` yields a successful response whose `improved` field is the
empty string (`parsed.get("improved", "") or ""`), refuting non-emptiness. -/
theorem remote_empty_improved :
    Main.analyze (some "k") (RemoteOutcome.parsed (Json.obj [("score", Json.num 50)]))
      "Hello team".toList =
      Except.ok { score := 50, reasons := [], improved := "" } := rfl

/-- Claim C8 amended: every successful response produced without a remote
JSON reply — the heuristic path of `src/main.py` and the mock and fixed
error-fallback paths of `src/backend/main.py`, for any credential
configuration — has a non-empty `improved` text; only the remote path of
`src/main.py` can return an empty `improved`. -/
theorem fallback_improved_nonempty (raw : List Char) (key : Option String)
    (resp : AnalyzeResponse)
    (h : Main.analyze key RemoteOutcome.exn raw = Except.ok resp ∨
         Backend.analyze key BackendRemoteOutcome.exn raw = Except.ok resp) :
    resp.improved ≠ "" := by
  rcases h with h | h
  · unfold Main.analyze at h
    by_cases he : pyStrip raw = []
    · rw [he] at h
      simp at h
    · cases hk : pyStrTruthy key
      · rw [hk] at h
        simp [he] at h
        rw [← h, heuristic_improved_eq]
        decide
      · rw [hk] at h
        simp [he] at h
        rw [← h, heuristic_improved_eq]
        decide
  · unfold Backend.analyze at h
    by_cases he : pyStrip raw = []
    · rw [he] at h
      simp at h
    · cases hk : pyStrTruthy key
      · rw [hk] at h
        simp [he] at h
        rw [← h]
        show Backend.mockImproved ≠ ""
        decide
      · rw [hk] at h
        simp [he] at h
        rw [← h]
        decide

/-- Witness for the amended C8 on the heuristic path. -/
theorem fallback_improved_nonempty_witness :
    ({ score := 60, reasons := [Main.reasonShort, Main.reasonFocus],
       improved := Main.improvedText } : AnalyzeResponse).improved ≠ "" :=
  fallback_improved_nonempty "Hello team".toList none
    { score := 60, reasons := [Main.reasonShort, Main.reasonFocus],
      improved := Main.improvedText } (Or.inl rfl)

/-- Claim C9: in `src/backend/main.py` with no credential configured, every
non-empty trimmed message is answered by the fixed mock — score
`max(35, min(95, 72 - max(0, (len(message) - 400) // 40)))` (hence in
[35, 95]), the fixed 3-element reasons list and the fixed improved string —
independent of message content apart from its length; the §4.2 heuristic is
not applied. -/
theorem backend_mock_formula (raw : List Char) (r : BackendRemoteOutcome)
    (h : pyStrip raw ≠ []) :
    Backend.analyze none r raw =
      Except.ok { score := max 35 (min 95 (72 - max 0 ((((pyStrip raw).length : Int) - 400).fdiv 40))),
                  reasons := Backend.mockReasons, improved := Backend.mockImproved } ∧
    (∀ resp, Backend.analyze none r raw = Except.ok resp →
      35 ≤ resp.score ∧ resp.score ≤ 95) := by
  have h1 : Backend.analyze none r raw =
      Except.ok { score := max 35 (min 95 (72 - max 0 ((((pyStrip raw).length : Int) - 400).fdiv 40))),
                  reasons := Backend.mockReasons, improved := Backend.mockImproved } := by
    unfold Backend.analyze
    simp [h, pyStrTruthy]
  refine ⟨h1, fun resp hresp => ?_⟩
  rw [h1] at hresp
  injection hresp with h2
  rw [← h2]
  exact ⟨le_max_left _ _, max_le (by norm_num) (min_le_left _ _)⟩

/-- Witness for C9 at the message "Hello" (length 5, penalty 0, score 72). -/
theorem backend_mock_formula_witness :
    Backend.analyze none BackendRemoteOutcome.exn "Hello".toList =
      Except.ok { score := 72, reasons := Backend.mockReasons, improved := Backend.mockImproved } ∧
    35 ≤ ({ score := 72, reasons := Backend.mockReasons,
            improved := Backend.mockImproved } : AnalyzeResponse).score ∧
    ({ score := 72, reasons := Backend.mockReasons,
       improved := Backend.mockImproved } : AnalyzeResponse).score ≤ 95 := by
  have h := backend_mock_formula "Hello".toList BackendRemoteOutcome.exn (by decide)
  have e : Backend.analyze none BackendRemoteOutcome.exn "Hello".toList =
      Except.ok { score := 72, reasons := Backend.mockReasons, improved := Backend.mockImproved } := by
    rw [h.1]
    rfl
  have hb := h.2 _ e
  exact ⟨e, hb.1, hb.2⟩

/-- Claim C10: in `src/backend/main.py`, while a credential is configured,
any exception in the remote path (network failure or a normalization error)
is answered by the single fixed constant response — score 70, a fixed
2-element reasons list and a fixed improved string — independent of the
input message and of the particular error. -/
theorem backend_remote_failure_fixed (raw : List Char) (key : String)
    (r : BackendRemoteOutcome) (hkey : key ≠ "") (hmsg : pyStrip raw ≠ [])
    (hfail : r = BackendRemoteOutcome.exn ∨
      ∃ j, r = BackendRemoteOutcome.parsed j ∧ Backend.remoteNormalize j = none) :
    Backend.analyze (some key) r raw = Except.ok Backend.fallbackResponse ∧
    Backend.fallbackResponse.score = 70 ∧
    Backend.fallbackResponse.reasons.length = 2 := by
  have hk : pyStrTruthy (some key) = true := by simp [pyStrTruthy, hkey]
  refine ⟨?_, rfl, rfl⟩
  rcases hfail with hf | ⟨j, hj, hnorm⟩
  · subst hf
    unfold Backend.analyze
    simp [hmsg, hk]
  · subst hj
    unfold Backend.analyze
    simp [hmsg, hk, hnorm]

/-- Witness for C10 at a network failure with credential "k". -/
theorem backend_remote_failure_fixed_witness :
    Backend.analyze (some "k") BackendRemoteOutcome.exn "Hello".toList =
      Except.ok Backend.fallbackResponse ∧
    Backend.fallbackResponse.score = 70 ∧
    Backend.fallbackResponse.reasons.length = 2 :=
  backend_remote_failure_fixed "Hello".toList "k" BackendRemoteOutcome.exn (by decide)
    (by decide) (Or.inl rfl)

/-- Claim C2 (spec-modelled Variant C): under the strict failure policy, for
every request made while a credential is configured, any remote failure — the
exception outcome or a strict-validation error — is surfaced as the explicit
502-equivalent `upstreamError`, never as a heuristic or static fallback
response. -/
theorem variantC_remote_failure_surfaced (raw : List Char) (key : String)
    (r : RemoteOutcome) (hkey : key ≠ "") (hmsg : pyStrip raw ≠ [])
    (hfail : r = RemoteOutcome.exn ∨
      ∃ j e, r = RemoteOutcome.parsed j ∧ VariantC.strictNormalize j = Except.error e) :
    VariantC.analyze (some key) r raw = Except.error AnalyzeError.upstreamError ∧
    ∀ resp, VariantC.analyze (some key) r raw ≠ Except.ok resp := by
  have hk : pyStrTruthy (some key) = true := by simp [pyStrTruthy, hkey]
  have h1 : VariantC.analyze (some key) r raw = Except.error AnalyzeError.upstreamError := by
    rcases hfail with hf | ⟨j, e, hj, hnorm⟩
    · subst hf
      unfold VariantC.analyze
      simp [hmsg, hk]
    · subst hj
      unfold VariantC.analyze
      simp [hmsg, hk, hnorm]
  refine ⟨h1, fun resp hresp => ?_⟩
  rw [h1] at hresp
  exact Except.noConfusion hresp

/-- Witness for C2 at a network failure with credential "k". -/
theorem variantC_remote_failure_surfaced_witness :
    VariantC.analyze (some "k") RemoteOutcome.exn "Hello".toList =
      Except.error AnalyzeError.upstreamError :=
  (variantC_remote_failure_surfaced "Hello".toList "k" RemoteOutcome.exn (by decide)
    (by decide) (Or.inl rfl)).1
